import Mathlib

/-!
A verification development for `chess_com_json_parser.py`.

The script downloads, for each FIDE title, the list of titled players on
Chess.com, fetches each player's stats and profile JSON, normalizes the
partially-missing JSON into a fixed 17-field record of strings, and writes
one CSV per title.

This file gives a shallow embedding of the script.  Decoded JSON values are
modeled by the inductive type `Json` (JSON numbers are modeled as integers:
all numeric data handled by the script is integral).  Python's exception
behavior is modeled with `Except PyErr`: a `KeyError` from a missing dict
key, a `TypeError` from subscripting a non-dict, an `AttributeError` from
calling `.replace` on a non-string, and the `NameError`/`UnboundLocalError`
that the script hits when a network fetch fails and the local variable
holding the response was never assigned (`compute_stats`,
`get_list_of_titled_players`, `get_other_data` all catch the fetch
exception, print it, and then fall through to use the unassigned local).
The network boundary is modeled by functions `String → Option Json`
(`none` = the fetch or JSON decode raised, i.e. a transport or decode
failure; `some j` = the decoded response body).
-/

/-- Decoded JSON values.  JSON numbers are modeled as integers. -/
inductive Json where
  | null : Json
  | bool (b : Bool) : Json
  | num (n : Int) : Json
  | str (s : String) : Json
  | arr (xs : List Json) : Json
  | obj (fields : List (String × Json)) : Json

/-- The Python runtime errors the script can raise.  `nameError` stands for
the `UnboundLocalError` raised when a variable assigned only inside a failed
`try` block is used afterwards. -/
inductive PyErr where
  | keyError : PyErr
  | typeError : PyErr
  | attributeError : PyErr
  | nameError : PyErr
  deriving DecidableEq

/-- Python subscripting `j[k]` with a string key: a missing key in a dict
raises `KeyError`; subscripting any non-dict value (number, string, list,
bool, `None`) with a string key raises `TypeError`. -/
def pyIndex : Json → String → Except PyErr Json
  | .obj fs, k =>
      match fs.lookup k with
      | some v => .ok v
      | none => .error .keyError
  | _, _ => .error .typeError

/-- Chained subscripting `j[k1][k2]…[kn]`; the first error raised along the
chain propagates. -/
def pathLookup : Json → List String → Except PyErr Json
  | j, [] => .ok j
  | j, k :: ks =>
      match pyIndex j k with
      | .ok v => pathLookup v ks
      | .error e => .error e

mutual

/-- Python `repr` of a decoded JSON value (string escaping inside container
reprs is not modeled; no claim depends on it). -/
def pyRepr : Json → String
  | .null => "None"
  | .bool true => "True"
  | .bool false => "False"
  | .num n => toString n
  | .str s => "\x27" ++ s ++ "\x27"
  | .arr xs => "[" ++ pyReprArr xs ++ "]"
  | .obj fs => "\x7b" ++ pyReprObj fs ++ "\x7d"

/-- Comma-separated `repr`s of the elements of a Python list. -/
def pyReprArr : List Json → String
  | [] => ""
  | [x] => pyRepr x
  | x :: y :: xs => pyRepr x ++ ", " ++ pyReprArr (y :: xs)

/-- Comma-separated `key: value` reprs of the items of a Python dict. -/
def pyReprObj : List (String × Json) → String
  | [] => ""
  | [(k, v)] => "\x27" ++ k ++ "\x27: " ++ pyRepr v
  | (k, v) :: f :: fs => "\x27" ++ k ++ "\x27: " ++ pyRepr v ++ ", " ++ pyReprObj (f :: fs)

end

/-- Python `str(...)` of a decoded JSON value: a string is returned as is,
anything else via its `repr` (`str(7) = "7"`, `str(None) = "None"`, …). -/
def pyStr : Json → String
  | .str s => s
  | j => pyRepr j

/-- `true` exactly when the value is a Python string. -/
def jsonIsStr : Json → Bool
  | .str _ => true
  | _ => false

/-- `true` exactly when the value is a Python dict. -/
def jsonIsObj : Json → Bool
  | .obj _ => true
  | _ => false

/-- Worker for `pyReplace`: scans left to right; at a match of `pat` the
match is consumed and `rep` emitted, otherwise one character is copied.
The fuel argument starts at the length of the scanned list, which each
step strictly decreases when `pat` is nonempty, so the `0` fallback is
never reached on the initial call. -/
def pyReplaceGo (pat rep : List Char) : Nat → List Char → List Char
  | _, [] => []
  | 0, s => s
  | n + 1, c :: rest =>
      if pat.isPrefixOf (c :: rest) then
        rep ++ pyReplaceGo pat rep n (List.drop pat.length (c :: rest))
      else
        c :: pyReplaceGo pat rep n rest

/-- Python `s.replace(pat, rep)`: replaces every non-overlapping occurrence
of `pat`, scanning left to right.  (The empty-pattern edge case of Python is
not modeled; the script only ever replaces a fixed nonempty URL string.) -/
def pyReplace (s pat rep : String) : String :=
  if pat.data.isEmpty then s
  else String.mk (pyReplaceGo pat.data rep.data s.data.length s.data)

/-- `str(...)` of the value reached by a key path. -/
def strPath (j : Json) (p : List String) : Except PyErr String :=
  match pathLookup j p with
  | .ok v => .ok (pyStr v)
  | .error e => .error e

/-- One `try: x = str(bundle[k1][k2][k3])  except KeyError: x = "0"` block
of `get_relevant_information` (lines 105-178): a `KeyError` anywhere along
the path is absorbed into the default `"0"`; any other error propagates. -/
def tryStr (j : Json) (p : List String) : Except PyErr String :=
  match strPath j p with
  | .error .keyError => .ok "0"
  | r => r

/-- The independent per-path view of one stats field: the stringified value
when the path resolves, `"0"` otherwise. -/
def orZero (j : Json) (p : List String) : String :=
  match pathLookup j p with
  | .ok v => pyStr v
  | .error _ => "0"

/-- The 14 stats key paths, in the order lines 105-178 extract them and
lines 185-188 emit them. -/
def statsPaths : List (List String) :=
  [["chess_rapid", "best", "rating"],
   ["chess_rapid", "record", "win"],
   ["chess_rapid", "record", "loss"],
   ["chess_rapid", "record", "draw"],
   ["chess_blitz", "best", "rating"],
   ["chess_blitz", "record", "win"],
   ["chess_blitz", "record", "loss"],
   ["chess_blitz", "record", "draw"],
   ["chess_bullet", "best", "rating"],
   ["chess_bullet", "record", "win"],
   ["chess_bullet", "record", "loss"],
   ["chess_bullet", "record", "draw"],
   ["tactics", "highest", "rating"],
   ["puzzle_rush", "best", "score"]]

/-- The five top-level stats keys the script reads. -/
def statsTopKeys : List String :=
  ["chess_rapid", "chess_blitz", "chess_bullet", "tactics", "puzzle_rush"]

/-- Lines 104-188 of `get_relevant_information`: the extraction of the 14
stats fields from the decoded stats bundle, one `try/except KeyError` block
per field, returned in the fixed order of lines 185-188.  (The vacuous
`try: pass / except: pass` of lines 181-184 is a no-op and is omitted.) -/
def extract_relevant_information (player_stats : Json) : Except PyErr (List String) := do
  let rapid_rating ← tryStr player_stats ["chess_rapid", "best", "rating"]
  let rapid_wins ← tryStr player_stats ["chess_rapid", "record", "win"]
  let rapid_losses ← tryStr player_stats ["chess_rapid", "record", "loss"]
  let rapid_draws ← tryStr player_stats ["chess_rapid", "record", "draw"]
  let blitz_rating ← tryStr player_stats ["chess_blitz", "best", "rating"]
  let blitz_wins ← tryStr player_stats ["chess_blitz", "record", "win"]
  let blitz_losses ← tryStr player_stats ["chess_blitz", "record", "loss"]
  let blitz_draws ← tryStr player_stats ["chess_blitz", "record", "draw"]
  let bullet_rating ← tryStr player_stats ["chess_bullet", "best", "rating"]
  let bullet_wins ← tryStr player_stats ["chess_bullet", "record", "win"]
  let bullet_losses ← tryStr player_stats ["chess_bullet", "record", "loss"]
  let bullet_draws ← tryStr player_stats ["chess_bullet", "record", "draw"]
  let tactics_rating ← tryStr player_stats ["tactics", "highest", "rating"]
  let puzzle_rush_rating ← tryStr player_stats ["puzzle_rush", "best", "score"]
  pure [rapid_rating, rapid_wins, rapid_losses, rapid_draws,
        blitz_rating, blitz_wins, blitz_losses, blitz_draws,
        bullet_rating, bullet_wins, bullet_losses, bullet_draws,
        tactics_rating, puzzle_rush_rating]

/-- Line 77: the country value with every occurrence of the fixed URL text
removed by `str.replace`. -/
def countryStrip (s : String) : String :=
  pyReplace s "https://api.chess.com/pub/country/" ""

/-- One `try: x = bundle[k]  except KeyError: x = default` block of
`get_other_data` (lines 79-87). -/
def catchKE (x : Except PyErr Json) (d : Json) : Except PyErr Json :=
  match x with
  | .error .keyError => .ok d
  | r => r

/-- The `.replace(...)` attribute access of line 77: defined only on a
string value; on any other value Python raises `AttributeError`. -/
def replaceAttr (c : Json) : Except PyErr String :=
  match c with
  | .str s => .ok (countryStrip s)
  | _ => .error .attributeError

/-- Lines 77-88 of `get_other_data`: extraction of `[country, location,
title]` from the decoded profile bundle.  `country` is a required lookup
(line 77, no `try`), and `.replace` on a non-string raises
`AttributeError`; `location` and `title` each have a `try/except KeyError`
with a string default and otherwise pass the raw value through. -/
def extract_other_data (location_data : Json) : Except PyErr (List Json) := do
  let c ← pyIndex location_data "country"
  let country ← replaceAttr c
  let location ← catchKE (pyIndex location_data "location") (.str "No Location Data Available")
  let title ← catchKE (pyIndex location_data "title") (.str "None")
  pure [Json.str country, location, title]

/-- Line 197 after both fetches: `get_relevant_information(player) +
get_other_data(player)` — the 14 stats strings followed by the 3 profile
fields.  The stats strings enter the record as Python strings. -/
def create_entry_pure (player_stats location_data : Json) : Except PyErr (List Json) := do
  let stats ← extract_relevant_information player_stats
  let other ← extract_other_data location_data
  pure (stats.map Json.str ++ other)

/-- The 17 column names of line 20-23 (`FEATURES`). -/
def FEATURES : List String :=
  ["rapid_rating", "rapid_wins", "rapid_losses", "rapid_draws",
   "blitz_rating", "blitz_wins", "blitz_losses", "blitz_draws",
   "bullet_rating", "bullet_wins", "bullet_losses", "bullet_draws",
   "tactics_rating", "puzzle_rush_rating", "country", "location", "title"]

/-- Lines 43-57 (`compute_stats`): fetch the stats JSON for a player.  On a
fetch/decode exception the `except` clause only prints, after which line 57
returns the never-assigned local `player_data`, raising
`UnboundLocalError` (modeled as `nameError`). -/
def compute_stats (fetchStats : String → Option Json) (player : String) :
    Except PyErr Json :=
  match fetchStats player with
  | some j => .ok j
  | none => .error .nameError

/-- Lines 91-188 (`get_relevant_information`): fetch the stats bundle, then
extract the 14 stats fields. -/
def get_relevant_information (fetchStats : String → Option Json) (player : String) :
    Except PyErr (List String) := do
  let player_stats ← compute_stats fetchStats player
  extract_relevant_information player_stats

/-- Lines 59-88 (`get_other_data`): fetch the profile bundle (same
unassigned-local behavior on a failed fetch as `compute_stats`), then
extract `[country, location, title]`. -/
def get_other_data (fetchProfile : String → Option Json) (player : String) :
    Except PyErr (List Json) := do
  let location_data ← match fetchProfile player with
    | some j => Except.ok j
    | none => Except.error .nameError
  extract_other_data location_data

/-- Lines 191-197 (`create_entry`): the concatenated 17-field record for one
player; the stats side is evaluated first. -/
def create_entry (fetchStats fetchProfile : String → Option Json) (player : String) :
    Except PyErr (List Json) := do
  let stats ← get_relevant_information fetchStats player
  let other ← get_other_data fetchProfile player
  pure (stats.map Json.str ++ other)

/-- Lines 26-40 (`get_list_of_titled_players`): fetch the membership JSON
for a title (unassigned local on failure, as above) and take its
`players` entry. -/
def get_list_of_titled_players (membersResp : Option Json) : Except PyErr Json :=
  match membersResp with
  | some j => pyIndex j "players"
  | none => .error .nameError

/-- The accumulating dataset: a Python dict from player name to record,
modeled as an association list in insertion order. -/
abbrev Dataset : Type := List (String × List Json)

/-- Python `d[k] = v`: update in place when the key exists (keeping its
position), append otherwise. -/
def dictInsert (d : Dataset) (k : String) (v : List Json) : Dataset :=
  match (List.lookup k d : Option (List Json)) with
  | some _ => d.map fun kv => if kv.1 = k then (k, v) else kv
  | none => d ++ [(k, v)]

/-- The inner loop of lines 214-215: iterate over the decoded `players`
array, building each player's entry and storing it in `current_dict`.  An
element of the array that is not a string would raise `TypeError` when
concatenated into the request URL. -/
def processPlayers (fetchStats fetchProfile : String → Option Json) :
    List Json → Dataset → Except PyErr Dataset
  | [], d => .ok d
  | x :: xs, d => do
      let player ← match x with
        | .str s => Except.ok s
        | _ => Except.error .typeError
      let entry ← create_entry fetchStats fetchProfile player
      processPlayers fetchStats fetchProfile xs (dictInsert d player entry)

/-- The title loop of lines 209-224: for each title, fetch and decode the
membership list (a non-array `players` value would raise `TypeError` when
iterated), run the player loop on the dict carried in from the previous
iteration, and record the dict snapshot written to that title's CSV.
Faithful to line 207, `current_dict` is created once, before the loop. -/
def create_data_frame_go (membersResp : String → Option Json)
    (fetchStats fetchProfile : String → Option Json) :
    List String → List (String × Dataset) → Dataset →
    Except PyErr (List (String × Dataset))
  | [], outs, _ => .ok outs
  | t :: ts, outs, d => do
      let lj ← get_list_of_titled_players (membersResp t)
      let xs ← match lj with
        | .arr xs => Except.ok xs
        | _ => Except.error .typeError
      let d2 ← processPlayers fetchStats fetchProfile xs d
      create_data_frame_go membersResp fetchStats fetchProfile ts (outs ++ [(t, d2)]) d2

/-- Lines 200-226 (`create_data_frame`): process every title in order,
returning the per-title dataset snapshots in the order their CSV files are
written.  The CSV serialization itself is I/O and is modeled by recording
the snapshot. -/
def create_data_frame (membersResp : String → Option Json)
    (fetchStats fetchProfile : String → Option Json) (fide_titles : List String) :
    Except PyErr (List (String × Dataset)) :=
  create_data_frame_go membersResp fetchStats fetchProfile fide_titles [] []

/-! ## General lemmas about the embedding -/

theorem ok_bind {α β : Type} (a : α) (f : α → Except PyErr β) :
    (Except.ok a >>= f) = f a := rfl

theorem error_bind {α β : Type} (e : PyErr) (f : α → Except PyErr β) :
    ((Except.error e : Except PyErr α) >>= f) = Except.error e := rfl

theorem pyIndex_err {j : Json} {k : String} {e : PyErr}
    (h : pyIndex j k = .error e) : e = .keyError ∨ e = .typeError := by
  cases j <;> simp [pyIndex] at h <;> try exact Or.inr h.symm
  case obj fs =>
    cases hl : List.lookup k fs <;> simp [hl] at h
    · exact Or.inl h.symm

theorem pathLookup_err {j : Json} {p : List String} {e : PyErr}
    (h : pathLookup j p = .error e) : e = .keyError ∨ e = .typeError := by
  induction p generalizing j with
  | nil => simp [pathLookup] at h
  | cons k ks ih =>
    rw [pathLookup] at h
    cases hi : pyIndex j k with
    | ok v => rw [hi] at h; exact ih h
    | error e2 =>
      rw [hi] at h
      injection h with h2
      subst h2
      exact pyIndex_err hi

theorem tryStr_eq (j : Json) (p : List String) :
    tryStr j p = .ok (orZero j p) ∨ tryStr j p = .error .typeError := by
  unfold tryStr strPath orZero
  cases hp : pathLookup j p with
  | ok v => simp
  | error e =>
    rcases pathLookup_err hp with rfl | rfl <;> simp

theorem tryStr_typeError {j : Json} {p : List String}
    (h : tryStr j p = .error .typeError) :
    pathLookup j p = .error .typeError := by
  unfold tryStr strPath at h
  cases hp : pathLookup j p with
  | ok v => rw [hp] at h; exact absurd h (by simp)
  | error e => rw [hp] at h; cases e <;> simp_all

theorem tryStr_of_keyError {j : Json} {p : List String}
    (h : pathLookup j p = .error .keyError) : tryStr j p = .ok "0" := by
  simp [tryStr, strPath, h]

theorem bind_ok_elim {α β : Type} {x : Except PyErr α} {f : α → Except PyErr β}
    {b : β} {a : α}
    (hx : x = .ok a ∨ x = .error .typeError) (h : x >>= f = .ok b) :
    f a = .ok b := by
  rcases hx with rfl | rfl
  · exact h
  · rw [error_bind] at h; exact absurd h (by simp)

theorem chain_err {α β : Type} {x : Except PyErr α} {f : α → Except PyErr β} {a : α}
    (hx : x = .ok a ∨ x = .error .typeError)
    (hf : f a = .error .typeError) :
    (x >>= f) = .error .typeError := by
  rcases hx with rfl | rfl
  · exact hf
  · rfl

theorem extract_ok_decomp {s : Json} {l : List String}
    (h : extract_relevant_information s = .ok l) :
    l = statsPaths.map (orZero s) := by
  unfold extract_relevant_information at h
  have h1 := bind_ok_elim (tryStr_eq s _) h
  have h2 := bind_ok_elim (tryStr_eq s _) h1
  have h3 := bind_ok_elim (tryStr_eq s _) h2
  have h4 := bind_ok_elim (tryStr_eq s _) h3
  have h5 := bind_ok_elim (tryStr_eq s _) h4
  have h6 := bind_ok_elim (tryStr_eq s _) h5
  have h7 := bind_ok_elim (tryStr_eq s _) h6
  have h8 := bind_ok_elim (tryStr_eq s _) h7
  have h9 := bind_ok_elim (tryStr_eq s _) h8
  have h10 := bind_ok_elim (tryStr_eq s _) h9
  have h11 := bind_ok_elim (tryStr_eq s _) h10
  have h12 := bind_ok_elim (tryStr_eq s _) h11
  have h13 := bind_ok_elim (tryStr_eq s _) h12
  have h14 := bind_ok_elim (tryStr_eq s _) h13
  injection h14 with h15
  exact h15.symm

theorem extract_ok_of_no_typeError {s : Json}
    (h : ∀ p ∈ statsPaths, pathLookup s p ≠ .error .typeError) :
    extract_relevant_information s = .ok (statsPaths.map (orZero s)) := by
  have ht : ∀ p ∈ statsPaths, tryStr s p = .ok (orZero s p) := by
    intro p hp
    rcases tryStr_eq s p with h1 | h1
    · exact h1
    · exact absurd (tryStr_typeError h1) (h p hp)
  unfold extract_relevant_information
  rw [ht _ (by simp [statsPaths]), ok_bind, ht _ (by simp [statsPaths]), ok_bind,
      ht _ (by simp [statsPaths]), ok_bind, ht _ (by simp [statsPaths]), ok_bind,
      ht _ (by simp [statsPaths]), ok_bind, ht _ (by simp [statsPaths]), ok_bind,
      ht _ (by simp [statsPaths]), ok_bind, ht _ (by simp [statsPaths]), ok_bind,
      ht _ (by simp [statsPaths]), ok_bind, ht _ (by simp [statsPaths]), ok_bind,
      ht _ (by simp [statsPaths]), ok_bind, ht _ (by simp [statsPaths]), ok_bind,
      ht _ (by simp [statsPaths]), ok_bind, ht _ (by simp [statsPaths]), ok_bind]
  rfl

/-! ## Claim theorems -/

/-- C1: for every raw stats bundle (a decoded JSON dict) in which every one
of the relevant key paths is missing — i.e. none of the top-level keys
`chess_rapid`, `chess_blitz`, `chess_bullet`, `tactics`, `puzzle_rush` is
present — the stats extraction of `get_relevant_information` produces the
all-default list of 14 fields, each equal to the string `"0"`. -/
theorem stats_allDefault_of_topKeys_absent (fs : List (String × Json))
    (habs : ∀ k ∈ statsTopKeys, List.lookup k fs = none) :
    extract_relevant_information (.obj fs) = .ok (List.replicate 14 "0") := by
  have key : ∀ (k : String) (ks : List String), List.lookup k fs = none →
      pathLookup (Json.obj fs) (k :: ks) = .error .keyError := by
    intro k ks hk
    rw [pathLookup]
    simp [pyIndex, hk]
  have ht : ∀ p ∈ statsPaths, tryStr (Json.obj fs) p = .ok "0" := by
    intro p hp
    have hsplit : ∃ k ks, p = k :: ks ∧ k ∈ statsTopKeys := by
      fin_cases hp <;> exact ⟨_, _, rfl, by simp [statsTopKeys]⟩
    obtain ⟨k, ks, rfl, hk⟩ := hsplit
    exact tryStr_of_keyError (key k ks (habs k hk))
  unfold extract_relevant_information
  rw [ht _ (by simp [statsPaths]), ok_bind, ht _ (by simp [statsPaths]), ok_bind,
      ht _ (by simp [statsPaths]), ok_bind, ht _ (by simp [statsPaths]), ok_bind,
      ht _ (by simp [statsPaths]), ok_bind, ht _ (by simp [statsPaths]), ok_bind,
      ht _ (by simp [statsPaths]), ok_bind, ht _ (by simp [statsPaths]), ok_bind,
      ht _ (by simp [statsPaths]), ok_bind, ht _ (by simp [statsPaths]), ok_bind,
      ht _ (by simp [statsPaths]), ok_bind, ht _ (by simp [statsPaths]), ok_bind,
      ht _ (by simp [statsPaths]), ok_bind, ht _ (by simp [statsPaths]), ok_bind]
  rfl

/-- Witness for C1: the empty stats dict yields the all-default record. -/
theorem stats_allDefault_of_topKeys_absent_witness :
    extract_relevant_information (.obj []) = .ok (List.replicate 14 "0") :=
  stats_allDefault_of_topKeys_absent [] (by intro k _; rfl)

/-- C2: for every stats bundle whose extraction succeeds and every speed
category (`chess_rapid` at offset 0, `chess_blitz` at offset 4,
`chess_bullet` at offset 8), the four per-speed output fields are the four
independent per-path lookups `orZero`: each present path's value is
extracted and stringified, each absent path gives `"0"`, and each field
depends only on its own path — in particular a missing `record` object
cannot affect the `best.rating` field, and vice versa. -/
theorem speed_lookups_independent (stats : Json) (l : List String)
    (h : extract_relevant_information stats = .ok l)
    (k : String) (i : Nat)
    (hk : (k, i) ∈ [("chess_rapid", 0), ("chess_blitz", 4), ("chess_bullet", 8)]) :
    l[i]? = some (orZero stats [k, "best", "rating"]) ∧
    l[i + 1]? = some (orZero stats [k, "record", "win"]) ∧
    l[i + 2]? = some (orZero stats [k, "record", "loss"]) ∧
    l[i + 3]? = some (orZero stats [k, "record", "draw"]) := by
  obtain rfl := extract_ok_decomp h
  fin_cases hk <;> simp [statsPaths]

/-- Witness for C2: a bundle whose `chess_blitz` has `best.rating` but no
`record` object at all still gets its blitz rating extracted, with `"0"`
for the three record fields. -/
def c2W : Json :=
  .obj [("chess_blitz", .obj [("best", .obj [("rating", .num 2400)])])]

/-- Witness for C2 (see `c2W`). -/
theorem speed_lookups_independent_witness :
    (statsPaths.map (orZero c2W))[4]? = some "2400" ∧
    (statsPaths.map (orZero c2W))[5]? = some "0" ∧
    (statsPaths.map (orZero c2W))[6]? = some "0" ∧
    (statsPaths.map (orZero c2W))[7]? = some "0" := by
  obtain ⟨h1, h2, h3, h4⟩ :=
    speed_lookups_independent c2W (statsPaths.map (orZero c2W)) rfl "chess_blitz" 4
      (by decide)
  exact ⟨h1, h2, h3, h4⟩

theorem pathLookup_append (j : Json) (q p2 : List String) :
    pathLookup j (q ++ p2) =
      match pathLookup j q with
      | .ok v => pathLookup v p2
      | .error e => .error e := by
  induction q generalizing j with
  | nil => simp [pathLookup]
  | cons a as ih =>
    simp only [List.cons_append, pathLookup]
    cases hi : pyIndex j a with
    | ok v => simp [ih]
    | error e => simp

theorem extract_err_of_path_typeError (stats : Json) (p : List String)
    (hp : p ∈ statsPaths)
    (herr : pathLookup stats p = .error .typeError) :
    extract_relevant_information stats = .error .typeError := by
  have htry : tryStr stats p = .error .typeError := by
    simp [tryStr, strPath, herr]
  fin_cases hp <;>
    unfold extract_relevant_information <;>
    simp only [htry, error_bind] <;>
    repeat (first | rfl | refine chain_err (tryStr_eq _ _) ?_)

/-- C10: the `"0"` default of the stats extraction is applied only on a
`KeyError`.  If any component along one of the 14 relevant key paths is
present but is not a dict — at the top level (e.g. `chess_rapid` mapping
to a number, string or list) or deeper (e.g. `chess_rapid.record` mapping
to a number) — then subscripting that value raises `TypeError`, which no
`except KeyError` catches, and the whole extraction aborts with
`TypeError` instead of substituting `"0"`.  Here `q` is the position of
the present non-dict value `v` along the relevant path `q ++ k :: r`. -/
theorem nonmapping_value_aborts (stats : Json) (q : List String) (k : String)
    (r : List String) (v : Json)
    (hp : q ++ k :: r ∈ statsPaths)
    (hq : pathLookup stats q = .ok v)
    (hno : jsonIsObj v = false) :
    extract_relevant_information stats = .error .typeError := by
  have hv2 : ∀ k2 : String, pyIndex v k2 = .error .typeError := by
    intro k2
    cases v <;> simp_all [pyIndex, jsonIsObj]
  have herr : pathLookup stats (q ++ k :: r) = .error .typeError := by
    rw [pathLookup_append, hq]
    simp [pathLookup, hv2]
  exact extract_err_of_path_typeError stats (q ++ k :: r) hp herr

/-- Witness for C10: a bundle whose `chess_rapid.record` is the number `7`
(a non-dict at depth two) aborts the extraction with `TypeError`. -/
theorem nonmapping_value_aborts_witness :
    extract_relevant_information (.obj [("chess_rapid", .obj [("record", .num 7)])]) =
      .error .typeError :=
  nonmapping_value_aborts (.obj [("chess_rapid", .obj [("record", .num 7)])])
    ["chess_rapid", "record"] "win" [] (.num 7) (by decide) rfl rfl

/-- The value of the C5 counterexample: a country string in which removing
the (leftmost non-overlapping) occurrence of the URL text glues the two
halves of the string into a fresh occurrence. -/
def c5Bad : String :=
  "https://api.chess.com/pub/countryhttps://api.chess.com/pub/country//"

/-- C5 counterexample: the stripping operation of line 77 is `str.replace`,
which removes every occurrence found in a single left-to-right scan, and is
not idempotent: on `c5Bad` a first application leaves exactly the URL text,
and a second application removes it, so applying the operation to an
already-stripped value can change it. -/
theorem countryStrip_not_idempotent :
    countryStrip (countryStrip c5Bad) ≠ countryStrip c5Bad := by decide

/-- C5 amended: on the documented input shape the stripping is exact and
stable — `".../pub/country/US"` yields exactly `"US"` both through the
profile extraction and through the stripping operation itself, and
re-applying the stripping to that already-stripped value leaves it
unchanged.  (Unrestricted idempotence fails: see the counterexample.) -/
theorem countryStrip_concrete_exact :
    extract_other_data (.obj [("country", .str "https://api.chess.com/pub/country/US")]) =
      .ok [.str "US", .str "No Location Data Available", .str "None"] ∧
    countryStrip "https://api.chess.com/pub/country/US" = "US" ∧
    countryStrip (countryStrip "https://api.chess.com/pub/country/US") =
      countryStrip "https://api.chess.com/pub/country/US" :=
  ⟨rfl, rfl, rfl⟩

/-- C6: for every profile bundle (a decoded JSON dict) whose `country` is a
string and which has no `location` key and no `title` key, the extracted
triple has location field exactly `"No Location Data Available"` and title
field exactly `"None"`. -/
theorem profile_defaults_location_title (fs : List (String × Json)) (s : String)
    (hc : List.lookup "country" fs = some (.str s))
    (hl : List.lookup "location" fs = none)
    (ht : List.lookup "title" fs = none) :
    extract_other_data (.obj fs) =
      .ok [.str (countryStrip s), .str "No Location Data Available", .str "None"] := by
  simp [extract_other_data, pyIndex, replaceAttr, hc, hl, ht, catchKE, ok_bind]

/-- Witness for C6: a bundle holding only a `country` key. -/
theorem profile_defaults_location_title_witness :
    extract_other_data (.obj [("country", .str "https://api.chess.com/pub/country/NO")]) =
      .ok [.str "NO", .str "No Location Data Available", .str "None"] :=
  profile_defaults_location_title
    [("country", .str "https://api.chess.com/pub/country/NO")]
    "https://api.chess.com/pub/country/NO" rfl rfl rfl

/-- C7: the `country` lookup of the profile extraction is required — when
the key is absent the extraction raises `KeyError` and substitutes no
default — while absence of optional paths never surfaces as a failure:
a profile bundle with a string `country` always extracts successfully
whatever its `location`/`title` keys, and a stats bundle in which paths are
merely absent (no lookup hits a `TypeError`) always extracts
successfully. -/
theorem country_required_optional_absorbed :
    (∀ fs : List (String × Json), List.lookup "country" fs = none →
        extract_other_data (.obj fs) = .error .keyError) ∧
    (∀ (fs : List (String × Json)) (s : String),
        List.lookup "country" fs = some (.str s) →
        ∃ r, extract_other_data (.obj fs) = .ok r) ∧
    (∀ stats : Json,
        (∀ p ∈ statsPaths, pathLookup stats p ≠ .error .typeError) →
        ∃ l, extract_relevant_information stats = .ok l) := by
  refine ⟨?_, ?_, ?_⟩
  · intro fs h
    simp [extract_other_data, pyIndex, h, error_bind]
  · intro fs s h
    cases hl : List.lookup "location" fs with
    | none =>
      cases ht : List.lookup "title" fs with
      | none =>
        exact ⟨[.str (countryStrip s), .str "No Location Data Available", .str "None"],
          by simp [extract_other_data, pyIndex, replaceAttr, h, hl, ht, catchKE, ok_bind]⟩
      | some tv =>
        exact ⟨[.str (countryStrip s), .str "No Location Data Available", tv],
          by simp [extract_other_data, pyIndex, replaceAttr, h, hl, ht, catchKE, ok_bind]⟩
    | some lv =>
      cases ht : List.lookup "title" fs with
      | none =>
        exact ⟨[.str (countryStrip s), lv, .str "None"],
          by simp [extract_other_data, pyIndex, replaceAttr, h, hl, ht, catchKE, ok_bind]⟩
      | some tv =>
        exact ⟨[.str (countryStrip s), lv, tv],
          by simp [extract_other_data, pyIndex, replaceAttr, h, hl, ht, catchKE, ok_bind]⟩
  · intro stats h
    exact ⟨_, extract_ok_of_no_typeError h⟩

/-- Witness for C7: the empty profile dict raises `KeyError`; a profile with
only a country extracts; the empty stats dict extracts. -/
theorem country_required_optional_absorbed_witness :
    extract_other_data (.obj []) = .error .keyError ∧
    (∃ r, extract_other_data (.obj [("country", .str "X")]) = .ok r) ∧
    (∃ l, extract_relevant_information (.obj []) = .ok l) := by
  obtain ⟨h1, h2, h3⟩ := country_required_optional_absorbed
  refine ⟨h1 [] rfl, h2 [("country", .str "X")] "X" rfl, h3 (.obj []) ?_⟩
  intro p hp h
  fin_cases hp <;> simp [pathLookup, pyIndex] at h

theorem catchKE_ok {x : Except PyErr Json} {d v : Json}
    (h : catchKE x d = .ok v) :
    x = .ok v ∨ (x = .error .keyError ∧ v = d) := by
  unfold catchKE at h
  cases x with
  | ok w => left; exact h
  | error e =>
    cases e <;> simp_all

theorem extract_other_ok {pd : Json} {other : List Json}
    (h : extract_other_data pd = .ok other) :
    ∃ (cs : String) (lv tv : Json),
      pyIndex pd "country" = .ok (.str cs) ∧
      catchKE (pyIndex pd "location") (.str "No Location Data Available") = .ok lv ∧
      catchKE (pyIndex pd "title") (.str "None") = .ok tv ∧
      other = [Json.str (countryStrip cs), lv, tv] := by
  unfold extract_other_data at h
  cases hc : pyIndex pd "country" with
  | error e => rw [hc, error_bind] at h; exact absurd h (by simp)
  | ok c =>
    rw [hc, ok_bind] at h
    cases hr : replaceAttr c with
    | error e => rw [hr, error_bind] at h; exact absurd h (by simp)
    | ok cs0 =>
    rw [hr, ok_bind] at h
    obtain ⟨s0, rfl, rfl⟩ : ∃ s0, c = Json.str s0 ∧ cs0 = countryStrip s0 := by
      cases c <;> simp [replaceAttr] at hr
      exact ⟨_, rfl, hr.symm⟩
    cases hl : catchKE (pyIndex pd "location") (.str "No Location Data Available") with
    | error e => rw [hl, error_bind] at h; exact absurd h (by simp)
    | ok lv =>
      rw [hl, ok_bind] at h
      cases ht : catchKE (pyIndex pd "title") (.str "None") with
      | error e => rw [ht, error_bind] at h; exact absurd h (by simp)
      | ok tv =>
        rw [ht, ok_bind] at h
        injection h with h2
        exact ⟨s0, lv, tv, rfl, rfl, rfl, h2.symm⟩

theorem create_entry_pure_ok {ps pd : Json} {rec : List Json}
    (h : create_entry_pure ps pd = .ok rec) :
    ∃ (sf : List String) (other : List Json),
      extract_relevant_information ps = .ok sf ∧
      extract_other_data pd = .ok other ∧
      rec = sf.map Json.str ++ other := by
  unfold create_entry_pure at h
  cases hs : extract_relevant_information ps with
  | error e => rw [hs, error_bind] at h; exact absurd h (by simp)
  | ok sf =>
    rw [hs, ok_bind] at h
    cases ho : extract_other_data pd with
    | error e => rw [ho, error_bind] at h; exact absurd h (by simp)
    | ok other =>
      rw [ho, ok_bind] at h
      injection h with h2
      exact ⟨sf, other, rfl, rfl, h2.symm⟩

/-- C8: whenever `create_entry`'s record-building succeeds, the emitted
record has exactly the 17 fields of the schema, in the fixed order: the 14
stats fields in `statsPaths` order (each the independent `orZero` lookup of
its own path), then the stripped country, then the location value, then the
title value. -/
theorem record_schema_17_fields {ps pd : Json} {rec : List Json}
    (h : create_entry_pure ps pd = .ok rec) :
    rec.length = FEATURES.length ∧
    ∃ (cs : String) (lv tv : Json),
      rec = statsPaths.map (fun p => Json.str (orZero ps p)) ++
            [Json.str (countryStrip cs), lv, tv] ∧
      pyIndex pd "country" = .ok (.str cs) ∧
      catchKE (pyIndex pd "location") (.str "No Location Data Available") = .ok lv ∧
      catchKE (pyIndex pd "title") (.str "None") = .ok tv := by
  obtain ⟨sf, other, hs, ho, rfl⟩ := create_entry_pure_ok h
  obtain rfl := extract_ok_decomp hs
  obtain ⟨cs, lv, tv, hc, hl, ht, rfl⟩ := extract_other_ok ho
  refine ⟨by simp [statsPaths, FEATURES], cs, lv, tv, ?_, hc, hl, ht⟩
  simp [List.map_map, Function.comp]

/-- The bundles and record of the C8 witness. -/
def c8Profile : Json := .obj [("country", .str "https://api.chess.com/pub/country/US")]

/-- The record emitted for the C8 witness bundles. -/
def c8Rec : List Json :=
  [.str "0", .str "0", .str "0", .str "0", .str "0", .str "0", .str "0",
   .str "0", .str "0", .str "0", .str "0", .str "0", .str "0", .str "0",
   .str "US", .str "No Location Data Available", .str "None"]

/-- Witness for C8: the empty stats dict and a country-only profile emit a
17-field record. -/
theorem record_schema_17_fields_witness : c8Rec.length = FEATURES.length :=
  (@record_schema_17_fields (.obj []) c8Profile c8Rec rfl).1

/-- The profile bundle of the C9 counterexample: its `location` value is the
number `42`. -/
def c9Profile : Json :=
  .obj [("country", .str "https://api.chess.com/pub/country/US"), ("location", .num 42)]

/-- C9 counterexample: normalization succeeds on `c9Profile` yet the
resulting record is not all strings — the numeric `location` value `42` is
passed through unconverted, so the claim that every field of a successfully
normalized record is a string, whatever the types in the profile bundle,
is false. -/
theorem record_field_not_string :
    (create_entry_pure (.obj []) c9Profile).map (fun r => r.all jsonIsStr) =
      .ok false := rfl

/-- C9 amended: for every pair of bundles for which normalization succeeds,
the 14 stats fields and the country field (the first 15 fields) are all
strings; the location and title fields are the string defaults when their
keys are absent, but when present they carry the profile bundle's raw
values, and so are strings only when those values are strings. -/
theorem record_fields_strings_except_passthrough {ps pd : Json} {rec : List Json}
    (h : create_entry_pure ps pd = .ok rec) :
    ∃ (sf : List String) (cs : String) (lv tv : Json),
      rec = sf.map Json.str ++ [Json.str (countryStrip cs), lv, tv] ∧
      (∀ x ∈ rec.take 15, jsonIsStr x = true) ∧
      (pyIndex pd "location" = .ok lv ∨
        (pyIndex pd "location" = .error .keyError ∧
         lv = .str "No Location Data Available")) ∧
      (pyIndex pd "title" = .ok tv ∨
        (pyIndex pd "title" = .error .keyError ∧ tv = .str "None")) := by
  obtain ⟨sf, other, hs, ho, rfl⟩ := create_entry_pure_ok h
  obtain rfl := extract_ok_decomp hs
  obtain ⟨cs, lv, tv, hc, hl, ht, rfl⟩ := extract_other_ok ho
  refine ⟨statsPaths.map (orZero ps), cs, lv, tv, rfl, ?_, catchKE_ok hl, catchKE_ok ht⟩
  intro x hx
  have hlen : ((statsPaths.map (orZero ps)).map Json.str).length = 14 := by
    simp [statsPaths]
  rw [show (15 : Nat) = 14 + 1 from rfl, ← hlen, List.take_append] at hx
  rcases List.mem_append.mp hx with hx1 | hx1
  · obtain ⟨s, _, rfl⟩ := List.mem_map.mp hx1
    rfl
  · have : x = Json.str (countryStrip cs) := by simpa using hx1
    subst this
    rfl

/-- The record of the C9 amended-claim witness: stats all default, `US`
country, the raw numeric location `42` passed through, default title. -/
def c9Rec : List Json :=
  [.str "0", .str "0", .str "0", .str "0", .str "0", .str "0", .str "0",
   .str "0", .str "0", .str "0", .str "0", .str "0", .str "0", .str "0",
   .str "US", .num 42, .str "None"]

/-- Witness for the amended C9 at the counterexample bundles themselves. -/
theorem record_fields_strings_except_passthrough_witness :
    ∃ (sf : List String) (cs : String) (lv tv : Json),
      c9Rec = sf.map Json.str ++ [Json.str (countryStrip cs), lv, tv] ∧
      (∀ x ∈ c9Rec.take 15, jsonIsStr x = true) ∧
      (pyIndex c9Profile "location" = .ok lv ∨
        (pyIndex c9Profile "location" = .error .keyError ∧
         lv = .str "No Location Data Available")) ∧
      (pyIndex c9Profile "title" = .ok tv ∨
        (pyIndex c9Profile "title" = .error .keyError ∧ tv = .str "None")) :=
  @record_fields_strings_except_passthrough (.obj []) c9Profile c9Rec rfl

/-- The membership responses of the C3 scenario: one GM, one IM. -/
def c3Members : String → Option Json := fun t =>
  if t = "GM" then some (.obj [("players", .arr [.str "alice"])])
  else if t = "IM" then some (.obj [("players", .arr [.str "bob"])])
  else none

/-- The stats responses of the C3 scenario: every player has an empty stats
bundle. -/
def c3Stats : String → Option Json := fun _ => some (.obj [])

/-- The profile responses of the C3 scenario: every player has a
country-only profile. -/
def c3Profile : String → Option Json := fun _ =>
  some (.obj [("country", .str "https://api.chess.com/pub/country/US")])

/-- C3 evidence (code bug): `current_dict = dict()` is executed once, on
line 207, before the title loop, so the dataset is not created empty at the
start of each title and entries are retained across titles.  In a run over
titles `GM` then `IM` with one-player membership lists, the dataset written
for `IM` contains the `GM` player `alice` as well — it has 2 rows though
the `IM` membership list has 1 player, contradicting the claimed per-title
lifecycle and the at-most-N bound. -/
theorem dataset_retained_across_titles :
    (create_data_frame c3Members c3Stats c3Profile ["GM", "IM"]).map
      (fun outs => outs.map fun td => (td.1, td.2.map Prod.fst)) =
    .ok [("GM", ["alice"]), ("IM", ["alice", "bob"])] := rfl

/-- The membership responses of the C4 scenario: one title with players
`p1` and `p2`. -/
def c4Members : String → Option Json := fun _ =>
  some (.obj [("players", .arr [.str "p1", .str "p2"])])

/-- The stats responses of the C4 scenario: the fetch for `p1` fails with a
transport failure; `p2`'s stats fetch succeeds. -/
def c4Stats : String → Option Json := fun p =>
  if p = "p1" then none else some (.obj [])

/-- C4 evidence (code bug): a transport failure on one player's stats fetch
is caught by `compute_stats` only to be printed, after which line 57 reads
the unassigned local `player_data` and raises `UnboundLocalError`.  Nothing
catches it, so instead of skipping `p1` and continuing with `p2`, the whole
batch aborts: no dataset is written at all. -/
theorem fetch_failure_aborts_batch :
    create_data_frame c4Members c4Stats c3Profile ["GM"] = .error .nameError := rfl
